import Mathlib

/-!
Verification development for the `TGate` bloq of
`src/qualtran/bloqs/basic_gates/t_gate.py`.

The embedding is shallow: each Python method of `TGate` becomes a Lean
function over an explicit state-free value type.  Complex matrix entries
are represented exactly in the ring ℤ[ω] with ω = e^{iπ/4} (an eighth
root of unity), which contains every entry appearing in the code
(`1`, `0`, `e^{iπ/4}` and its conjugate `e^{-iπ/4}`) and on which
conjugation acts computably.  Python dictionaries become functions into
`Option`, and operations that can raise (`KeyError` on a missing key,
tuple-unpacking a wrong-sized sequence) return `Option`.
-/

namespace Qualtran

/-- Exact representation of a complex number of the form
`c0 + c1*ω + c2*ω^2 + c3*ω^3` with `ω = e^{iπ/4}`, the primitive eighth
root of unity.  Since `ω^4 = -1`, this set of numbers is closed under
addition, multiplication and complex conjugation, and contains all
entries of the matrices appearing in `t_gate.py`. -/
structure C8 where
  c0 : Int
  c1 : Int
  c2 : Int
  c3 : Int
deriving DecidableEq, Repr

namespace C8

/-- `0` as an element of ℤ[ω]. -/
def zero : C8 := ⟨0, 0, 0, 0⟩

/-- `1` as an element of ℤ[ω]. -/
def one : C8 := ⟨1, 0, 0, 0⟩

/-- `e^{iπ/4} = ω` as an element of ℤ[ω]. -/
def expIPiDiv4 : C8 := ⟨0, 1, 0, 0⟩

/-- `e^{-iπ/4} = ω⁻¹ = ω⁷ = -ω³` as an element of ℤ[ω]
(using `ω^4 = -1`). -/
def expNegIPiDiv4 : C8 := ⟨0, 0, 0, -1⟩

/-- Complex conjugation on ℤ[ω]: `conj ω = ω⁻¹ = -ω³`,
`conj ω² = -ω²`, `conj ω³ = -ω`, so
`conj (a + bω + cω² + dω³) = a - dω - cω² - bω³`. -/
def conj (z : C8) : C8 := ⟨z.c0, -z.c3, -z.c2, -z.c1⟩

/-- Multiplication in ℤ[ω], reducing powers with `ω^4 = -1`.
Used only for sanity lemmas anchoring the representation. -/
def mul (x y : C8) : C8 :=
  ⟨x.c0 * y.c0 - x.c1 * y.c3 - x.c2 * y.c2 - x.c3 * y.c1,
   x.c0 * y.c1 + x.c1 * y.c0 - x.c2 * y.c3 - x.c3 * y.c2,
   x.c0 * y.c2 + x.c1 * y.c1 + x.c2 * y.c0 - x.c3 * y.c3,
   x.c0 * y.c3 + x.c1 * y.c2 + x.c2 * y.c1 + x.c3 * y.c0⟩

end C8

/-- A 2×2 matrix over ℤ[ω], stored row-major as in the
`np.array([[a00, a01], [a10, a11]])` literal of the code. -/
structure Mat2 where
  a00 : C8
  a01 : C8
  a10 : C8
  a11 : C8
deriving DecidableEq, Repr

/-- `M.conj().T` of the code: transpose and entrywise complex
conjugation. -/
def Mat2.conjTranspose (m : Mat2) : Mat2 :=
  ⟨m.a00.conj, m.a10.conj, m.a01.conj, m.a11.conj⟩

/-- `_TMATRIX = np.array([[1, 0], [0, np.exp(1.0j * np.pi / 4.0)]])`:
the T-gate unitary `[[1, 0], [0, e^{iπ/4}]]`. -/
def _TMATRIX : Mat2 := ⟨C8.one, C8.zero, C8.zero, C8.expIPiDiv4⟩

/-- One register of a signature: a name and a bit-width
(`Register(name, bitsize)` in qualtran). -/
structure Register where
  name : String
  bitsize : Nat
deriving DecidableEq, Repr

/-- A `Signature` is the ordered list of registers. -/
abbrev Signature := List Register

/-- `Signature.build(q=1)`-style construction: each keyword argument
`name=bitsize` becomes one register, in order. -/
def Signature.build (regs : List (String × Nat)) : Signature :=
  regs.map (fun p => ⟨p.1, p.2⟩)

/-- `TComplexity(t=..., clifford=..., rotations=...)` with every field
defaulting to `0`. -/
structure TComplexity where
  t : Nat := 0
  clifford : Nat := 0
  rotations : Nat := 0
deriving DecidableEq, Repr

/-- The gate descriptor: `@frozen class TGate(Bloq)` with the single
attrs field `is_adjoint: bool = False`. -/
structure TGate where
  is_adjoint : Bool := false
deriving DecidableEq, Repr

namespace TGate

/-- `TGate.signature`: `return Signature.build(q=1)`. -/
def signature (_g : TGate) : Signature := Signature.build [("q", 1)]

/-- `TGate._t_complexity_`: `return TComplexity(t=1)`. -/
def _t_complexity_ (_g : TGate) : TComplexity := { t := 1 }

/-- `TGate.adjoint`:
`return attrs.evolve(self, is_adjoint=not self.is_adjoint)` —
a fresh descriptor with the flag negated. -/
def adjoint (g : TGate) : TGate := { g with is_adjoint := !g.is_adjoint }

/-- `TGate.pretty_name`:
`maybe_dag = '†' if self.is_adjoint else ''; return f'T{maybe_dag}'`. -/
def pretty_name (g : TGate) : String :=
  let maybe_dag := if g.is_adjoint then "†" else ""
  "T" ++ maybe_dag

/-- Modelled from the spec: the base `Bloq.short_name` used for the
first tensor tag is not part of `src/`; per the spec's Tagging clause
("the inserted tensor must carry two tags — the gate's display name and
the caller-supplied tag") it is the gate's display name. -/
def short_name (g : TGate) : String := g.pretty_name

/-- `TGate.__str__`:
`maybe_dag = 'is_adjoint=True' if self.is_adjoint else '';
return f'TGate({maybe_dag})'`. -/
def __str__ (g : TGate) : String :=
  let maybe_dag := if g.is_adjoint then "is_adjoint=True" else ""
  "TGate(" ++ maybe_dag ++ ")"

end TGate

/-- A quimb tensor as constructed by the code:
`qtn.Tensor(data=..., inds=(outgoing['q'], incoming['q']), tags=[...])`.
`σ` is the opaque type of leg identifiers (soquets). -/
structure Tensor (σ : Type) where
  data : Mat2
  inds : σ × σ
  tags : List String
deriving DecidableEq, Repr

/-- A tensor network, abstracted to the list of tensors added to it
(`tn.add` appends one node). -/
abbrev TensorNetwork (σ : Type) := List (Tensor σ)

namespace TGate

/-- `TGate.add_my_tensors(self, tn, tag, *, incoming, outgoing)`.
Evaluation order follows the Python source: the matrix
`_TMATRIX.conj().T if self.is_adjoint else _TMATRIX` is computed first,
then the index lookups `outgoing['q']` and `incoming['q']` (each a
`KeyError`, i.e. `none`, when the key is absent), and only then is the
tensor inserted into `tn`.  A failed lookup therefore yields `none`
with no node added. -/
def add_my_tensors {σ : Type} (g : TGate) (tn : TensorNetwork σ)
    (tag : String) (incoming : String → Option σ)
    (outgoing : String → Option σ) : Option (TensorNetwork σ) :=
  let data := if g.is_adjoint then _TMATRIX.conjTranspose else _TMATRIX
  match outgoing "q", incoming "q" with
  | some oq, some iq =>
      some (tn ++ [⟨data, (oq, iq), [g.short_name, tag]⟩])
  | _, _ => none

end TGate

/-- The cirq gates relevant here: `cirq.T` and its external
adjoint-equivalent `cirq.T**-1`. -/
inductive CirqGate where
  | T : CirqGate
  | T_dagger : CirqGate
deriving DecidableEq, Repr

/-- A cirq operation: a gate applied to one qubit handle. -/
structure CirqOperation (Q : Type) where
  gate : CirqGate
  qubit : Q
deriving DecidableEq, Repr

namespace TGate

/-- `TGate.as_cirq_op(self, qubit_manager, q)`:
`(q,) = q; return cirq.T(q), {'q': np.array([q])}`.
The tuple unpacking `(q,) = q` raises (`none`) unless the handle
collection has exactly one element.  Note the source applies `cirq.T`
unconditionally, never consulting `self.is_adjoint`. -/
def as_cirq_op {Q : Type} (_g : TGate) (_qubit_manager : Unit)
    (q : List Q) :
    Option (CirqOperation Q × List (String × List Q)) :=
  match q with
  | [q0] => some (⟨CirqGate.T, q0⟩, [("q", [q0])])
  | _ => none

end TGate

/-- `_t_gate()`: the registered zero-argument example factory,
`t_gate = TGate(); return t_gate`. -/
def _t_gate : TGate := {}

end Qualtran

namespace Qualtran

/-- C1 counterexample-style evaluation: on the adjoint descriptor
`TGate(is_adjoint=True)` with the single qubit handle `0`, the
external-op translator returns the BASE operation `cirq.T`, not the
adjoint-equivalent `cirq.T**-1`, together with the mapping
`{"q": [0]}`.  This exhibits the divergence from the claim (and from
the class's own documentation, which says the bloq is `T†` when the
flag is set). -/
theorem as_cirq_op_adjoint_returns_base_op :
    (TGate.mk true).as_cirq_op () [(0 : Nat)]
      = some (⟨CirqGate.T, 0⟩, [("q", [0])])
    ∧ CirqGate.T ≠ CirqGate.T_dagger := by
  constructor
  · rfl
  · decide

/-- C2: for every boolean `b`, `adjoint (adjoint (TGate b)) = TGate b`,
and a single `adjoint` yields the descriptor with the flag negated
(the original, being a value, is untouched). -/
theorem adjoint_adjoint_roundtrip :
    (∀ b : Bool, (TGate.mk b).adjoint.adjoint = TGate.mk b)
    ∧ (∀ b : Bool, (TGate.mk b).adjoint = TGate.mk (!b)) := by
  constructor
  · intro b; cases b <;> rfl
  · intro b; cases b <;> rfl

/-- C3: whenever both leg mappings are complete (they carry an entry for
register `q`), the tensor embedding inserts exactly one tensor whose
data is the base matrix `[[1, 0], [0, e^{iπ/4}]]` when `is_adjoint` is
false, and its conjugate transpose `[[1, 0], [0, e^{-iπ/4}]]` when
`is_adjoint` is true. -/
theorem add_my_tensors_data {σ : Type} (g : TGate) (tn : TensorNetwork σ)
    (tag : String) (incoming outgoing : String → Option σ) (iq oq : σ)
    (hin : incoming "q" = some iq) (hout : outgoing "q" = some oq) :
    ∃ t : Tensor σ,
      g.add_my_tensors tn tag incoming outgoing = some (tn ++ [t])
      ∧ t.data = (if g.is_adjoint
          then ⟨C8.one, C8.zero, C8.zero, C8.expNegIPiDiv4⟩
          else ⟨C8.one, C8.zero, C8.zero, C8.expIPiDiv4⟩)
      ∧ t.data
          = (if g.is_adjoint then _TMATRIX.conjTranspose else _TMATRIX) := by
  refine ⟨⟨if g.is_adjoint then _TMATRIX.conjTranspose else _TMATRIX,
    (oq, iq), [g.short_name, tag]⟩, ?_, ?_, rfl⟩
  · simp [TGate.add_my_tensors, hin, hout]
  · cases h : g.is_adjoint <;> simp [h] <;> decide

/-- C3 witness: the theorem applied at the adjoint descriptor and a
concrete pair of complete mappings over `Nat` leg identifiers. -/
theorem add_my_tensors_data_witness :
    ∃ t : Tensor Nat,
      (TGate.mk true).add_my_tensors [] "tag0"
          (fun s => if s = "q" then some 1 else none)
          (fun s => if s = "q" then some 2 else none)
        = some ([] ++ [t])
      ∧ t.data = (if (TGate.mk true).is_adjoint
          then ⟨C8.one, C8.zero, C8.zero, C8.expNegIPiDiv4⟩
          else ⟨C8.one, C8.zero, C8.zero, C8.expIPiDiv4⟩)
      ∧ t.data = (if (TGate.mk true).is_adjoint
          then _TMATRIX.conjTranspose else _TMATRIX) :=
  add_my_tensors_data (TGate.mk true) [] "tag0"
    (fun s => if s = "q" then some 1 else none)
    (fun s => if s = "q" then some 2 else none) 1 2 rfl rfl

/-- C4: whenever both leg mappings are complete, the inserted tensor's
two legs are `(outgoing['q'], incoming['q'])`, in that exact order. -/
theorem add_my_tensors_leg_order {σ : Type} (g : TGate)
    (tn : TensorNetwork σ) (tag : String)
    (incoming outgoing : String → Option σ) (iq oq : σ)
    (hin : incoming "q" = some iq) (hout : outgoing "q" = some oq) :
    ∃ t : Tensor σ,
      g.add_my_tensors tn tag incoming outgoing = some (tn ++ [t])
      ∧ t.inds = (oq, iq) := by
  refine ⟨⟨if g.is_adjoint then _TMATRIX.conjTranspose else _TMATRIX,
    (oq, iq), [g.short_name, tag]⟩, ?_, rfl⟩
  simp [TGate.add_my_tensors, hin, hout]

/-- C4 witness: the theorem applied at the non-adjoint descriptor and a
concrete pair of complete mappings with distinguishable leg
identifiers. -/
theorem add_my_tensors_leg_order_witness :
    ∃ t : Tensor Nat,
      (TGate.mk false).add_my_tensors [] "tag1"
          (fun s => if s = "q" then some 7 else none)
          (fun s => if s = "q" then some 8 else none)
        = some ([] ++ [t])
      ∧ t.inds = (8, 7) :=
  add_my_tensors_leg_order (TGate.mk false) [] "tag1"
    (fun s => if s = "q" then some 7 else none)
    (fun s => if s = "q" then some 8 else none) 7 8 rfl rfl

/-- C5: for every value of the adjoint flag, the cost reporter returns
exactly one T count (and nothing else), so the cost is independent of
the flag. -/
theorem t_complexity_one_t :
    (∀ b : Bool,
      (TGate.mk b)._t_complexity_
        = { t := 1, clifford := 0, rotations := 0 })
    ∧ (∀ b b' : Bool,
      (TGate.mk b)._t_complexity_ = (TGate.mk b')._t_complexity_) := by
  exact ⟨fun b => rfl, fun b b' => rfl⟩

/-- C6: for every value of the adjoint flag, the signature is exactly
one register named `q` of bit-width 1, identical for both flag
values. -/
theorem signature_single_q :
    (∀ b : Bool, (TGate.mk b).signature = [⟨"q", 1⟩])
    ∧ (TGate.mk false).signature = (TGate.mk true).signature := by
  exact ⟨fun b => rfl, rfl⟩

/-- C7: `pretty_name` is `"T"` for the base gate and `"T†"` (the base
symbol with a dagger appended) for the adjoint. -/
theorem pretty_name_dagger :
    (TGate.mk false).pretty_name = "T"
    ∧ (TGate.mk true).pretty_name = "T" ++ "†" := by
  exact ⟨rfl, rfl⟩

/-- C8: the diagnostic string contains the marker `is_adjoint=True`
exactly when the flag is set; for the base gate it is `"TGate()"`,
which contains no `is_adjoint` text at all. -/
theorem str_adjoint_marker :
    (TGate.mk true).__str__ = "TGate(is_adjoint=True)"
    ∧ "is_adjoint=True".data <:+: ((TGate.mk true).__str__).data
    ∧ (TGate.mk false).__str__ = "TGate()"
    ∧ ¬ ("is_adjoint".data <:+: ((TGate.mk false).__str__).data) := by
  refine ⟨rfl, ⟨"TGate(".data, ")".data, by decide⟩, rfl, ?_⟩
  decide

/-- C9: if either leg mapping lacks an entry for register `q`, the
tensor embedding fails at the lookup (before any node is added): it
returns `none`, never a modified network. -/
theorem add_my_tensors_missing_key {σ : Type} (g : TGate)
    (tn : TensorNetwork σ) (tag : String)
    (incoming outgoing : String → Option σ)
    (h : incoming "q" = none ∨ outgoing "q" = none) :
    g.add_my_tensors tn tag incoming outgoing = none := by
  rcases h with h | h
  · simp only [TGate.add_my_tensors]
    rw [h]
    cases outgoing "q" <;> rfl
  · simp only [TGate.add_my_tensors]
    rw [h]

/-- C9 witness: the theorem applied at concrete mappings where the
incoming mapping lacks `q`. -/
theorem add_my_tensors_missing_key_witness :
    (TGate.mk false).add_my_tensors ([] : TensorNetwork Nat) "tag2"
      (fun _ => none) (fun s => if s = "q" then some 3 else none)
      = none :=
  add_my_tensors_missing_key (TGate.mk false) [] "tag2"
    (fun _ => none) (fun s => if s = "q" then some 3 else none)
    (Or.inl rfl)

/-- C10: the zero-argument constructor yields the non-adjoint gate
(`is_adjoint` defaults to `False`), and the registered example factory
`_t_gate` returns exactly that default instance. -/
theorem t_gate_default :
    ({} : TGate) = { is_adjoint := false }
    ∧ _t_gate = ({} : TGate)
    ∧ _t_gate.is_adjoint = false := by
  exact ⟨rfl, rfl, rfl⟩

end Qualtran
